import Mathlib

/-!
Shallow embedding of the book-review community platform's persistence layer
(`Service/DB/Operation.py`, `Service/DB/ExtractInfo.py`) and media utility
(`Service/Img.py`), together with theorems settling the specification claims.

Modelling conventions:
* Each SQLAlchemy table is a Lean structure; the database is a `DBState`
  holding one list per table, in insertion order, plus autoincrement counters
  for the tables whose claims need fresh ids.
* `query.filter_by(...).all()` is `List.filter`, `.first()` is `List.find?`,
  `.count()` is `(List.filter ...).length`, `.update({...})` is `List.map`
  with a conditional field update.
* A Python function that can raise returns `Except PyExc _`; returning the
  `None` sentinel is `Option.none` (distinct from raising).
* Python `dict` projections built by `ExtractInfo.py` are Lean structures
  with the same field names; `extractUser` additionally gets an association
  list form because one claim is about the presence of dictionary keys.
* Journal content strings are `List Char` (Python `str` as a character
  sequence), so that `"\n".join` / `.split("\n")` are `List.intercalate` /
  `List.splitOn` on characters.
* Timestamps are opaque strings passed in by the caller (`datetime.now()`
  formatting is irrelevant to every claim).
-/

namespace BookDB

/-- Python exception kinds that the modelled code paths can raise. -/
inductive PyExc where
  | attributeError
  | typeError
  | keyError
  | valueError
  | indexError
deriving DecidableEq, Repr

/-- Values stored in a modelled Python dictionary. -/
inductive PyVal where
  | vInt (n : Nat)
  | vStr (s : String)
  | vNone
deriving DecidableEq, Repr

/-- User table row (`User` model in `Operation.py`). -/
structure User where
  id : Nat
  account : String
  password : String
  signature : String
  email : Option String
  telephone : Option String
  lastLoginTime : String
  role : String
deriving DecidableEq, Repr

/-- Book table row (`Book` model). `doubanScore` is stored but never
computed with in any claim-relevant path, so its numeric type is
immaterial; it is embedded as `Int`. -/
structure Book where
  id : Nat
  isbn : String
  title : String
  originTitle : String
  subtitle : String
  author : String
  page : Nat
  publishDate : String
  publisher : String
  description : String
  doubanScore : Int
  doubanID : String
  type : String
deriving DecidableEq, Repr

/-- Journal table row (`Journal` model); `firstParagraph` and `content`
are Python strings, embedded as character lists. -/
structure Journal where
  id : Nat
  title : String
  firstParagraph : List Char
  content : List Char
  publishTime : String
  authorID : Nat
  bookID : Nat
deriving DecidableEq, Repr

/-- JournalComment table row. -/
structure JournalComment where
  id : Nat
  publishTime : String
  authorID : Nat
  journalID : Nat
  content : String
  isRead : Bool
deriving DecidableEq, Repr

/-- JournalLike table row; (authorID, journalID) is the composite key. -/
structure JournalLike where
  authorID : Nat
  journalID : Nat
  publishTime : String
deriving DecidableEq, Repr

/-- Group table row. -/
structure Group where
  id : Nat
  name : String
  founderID : Nat
  description : String
  establishTime : String
deriving DecidableEq, Repr

/-- GroupDiscussion table row. -/
structure GroupDiscussion where
  id : Nat
  posterID : Nat
  groupID : Nat
  postTime : String
  title : String
  content : String
  isRead : Bool
deriving DecidableEq, Repr

/-- GroupUser table row. -/
structure GroupUser where
  userID : Nat
  groupID : Nat
  joinTime : String
deriving DecidableEq, Repr

/-- GroupDiscussionReply table row. -/
structure GroupDiscussionReply where
  authorID : Nat
  discussionID : Nat
  replyTime : String
  content : String
  isRead : Bool
deriving DecidableEq, Repr

/-- Error table row. -/
structure ErrorRec where
  errorCode : Nat
  title : String
  title_en : String
  content : String
  publishTime : String
  authorID : Nat
  referenceLink : String
deriving DecidableEq, Repr

/-- Chat table row. -/
structure Chat where
  id : Nat
  senderID : Nat
  receiverID : Nat
  content : String
  sendTime : String
  isRead : Bool
deriving DecidableEq, Repr

/-- The whole relational state: one list per table (rows in insertion
order) plus autoincrement counters for the ids that claims reason about. -/
structure DBState where
  users : List User
  books : List Book
  journals : List Journal
  journalComments : List JournalComment
  journalLikes : List JournalLike
  groups : List Group
  groupDiscussions : List GroupDiscussion
  groupUsers : List GroupUser
  groupDiscussionReplies : List GroupDiscussionReply
  errors : List ErrorRec
  chats : List Chat
  nextUserId : Nat
  nextJournalId : Nat
deriving DecidableEq, Repr

/-- The empty database, used by concrete witnesses. -/
def emptyDB : DBState :=
  { users := [], books := [], journals := [], journalComments := [],
    journalLikes := [], groups := [], groupDiscussions := [], groupUsers := [],
    groupDiscussionReplies := [], errors := [], chats := [],
    nextUserId := 1, nextJournalId := 1 }

/-! ### Likes (`Database.getJournalLikeNum`, `Database.addJournalLike`) -/

/-- `Database.getJournalLikeNum`: `JournalLike.query.filter_by(journalID=...).count()`. -/
def getJournalLikeNum (db : DBState) (journalID : Nat) : Nat :=
  (db.journalLikes.filter (fun l => l.journalID == journalID)).length

/-- `Database.addJournalLike`: check the composite-key record first; if
present return `False` (already liked), else insert and return `True`.
The `datetime.now()` timestamp is passed in as `now`. -/
def addJournalLike (db : DBState) (journalID authorID : Nat) (now : String) :
    DBState × Bool :=
  match db.journalLikes.find? (fun l => l.journalID == journalID && l.authorID == authorID) with
  | some _ => (db, false)
  | none =>
      let like : JournalLike := { authorID := authorID, journalID := journalID, publishTime := now }
      ({ db with journalLikes := db.journalLikes ++ [like] }, true)

/-! ### Bulk read-marking accessors -/

/-- `Database.markAllJournalCommentAsRead`: one UPDATE flipping `isRead`
for every comment of the journal. -/
def markAllJournalCommentAsRead (db : DBState) (journalID : Nat) : DBState :=
  let updated := db.journalComments.map
    (fun c => if c.journalID == journalID then { c with isRead := true } else c)
  { db with journalComments := updated }

/-- `Database.markAllDiscussionAsRead`: flips `isRead` for every
discussion of the group. -/
def markAllDiscussionAsRead (db : DBState) (groupID : Nat) : DBState :=
  let updated := db.groupDiscussions.map
    (fun d => if d.groupID == groupID then { d with isRead := true } else d)
  { db with groupDiscussions := updated }

/-- `Database.markAllDiscussionReplyAsRead`: flips `isRead` for every
reply of the discussion. -/
def markAllDiscussionReplyAsRead (db : DBState) (discussionID : Nat) : DBState :=
  let updated := db.groupDiscussionReplies.map
    (fun r => if r.discussionID == discussionID then { r with isRead := true } else r)
  { db with groupDiscussionReplies := updated }

/-- The unread-children query for one journal: the aggregator's filter
`JournalComment.query.filter(journalID=..., isRead=False)` specialised to
a parent journal id. -/
def getUnreadJournalComments (db : DBState) (journalID : Nat) : List JournalComment :=
  db.journalComments.filter (fun c => c.journalID == journalID && c.isRead == false)

/-- The unread-children query for one group: discussions of the group
with `isRead == False`. -/
def getUnreadGroupDiscussions (db : DBState) (groupID : Nat) : List GroupDiscussion :=
  db.groupDiscussions.filter (fun d => d.groupID == groupID && d.isRead == false)

/-- The unread-children query for one discussion: replies of the
discussion with `isRead == False`. -/
def getUnreadDiscussionReplies (db : DBState) (discussionID : Nat) : List GroupDiscussionReply :=
  db.groupDiscussionReplies.filter (fun r => r.discussionID == discussionID && r.isRead == false)

/-! ### User projections and account operations -/

/-- `ExtractInfo.extractUser`: projects a user row to a Python dict,
including the `password` key only when `withPassword` is true. The dict
is modelled as an association list so that key presence is expressible. -/
def extractUser (user : User) (withPassword : Bool) : List (String × PyVal) :=
  if withPassword then
    [(("id"), PyVal.vInt user.id),
     (("account"), PyVal.vStr user.account),
     (("password"), PyVal.vStr user.password),
     (("signature"), PyVal.vStr user.signature),
     (("email"), match user.email with | some e => PyVal.vStr e | none => PyVal.vNone),
     (("telephone"), match user.telephone with | some t => PyVal.vStr t | none => PyVal.vNone),
     (("role"), PyVal.vStr user.role)]
  else
    [(("id"), PyVal.vInt user.id),
     (("account"), PyVal.vStr user.account),
     (("signature"), PyVal.vStr user.signature),
     (("email"), match user.email with | some e => PyVal.vStr e | none => PyVal.vNone),
     (("telephone"), match user.telephone with | some t => PyVal.vStr t | none => PyVal.vNone),
     (("role"), PyVal.vStr user.role)]

/-- `Database.getUser`: `User.query.filter_by(id=...).first()`; `None`
when the row is missing, else the `extractUser` projection. -/
def getUser (db : DBState) (userID : Nat) (withPasswd : Bool) : Option (List (String × PyVal)) :=
  match db.users.find? (fun u => u.id == userID) with
  | none => none
  | some u => some (extractUser u withPasswd)

/-- `Database.addUser`: empty email/telephone become `None`, the password
is stored hashed (`genHash` stands for `generate_password_hash`), the id
is the autoincrement value; returns the new state and `user.id`. -/
def addUser (genHash : String → String) (db : DBState)
    (account password email telephone role now : String) : DBState × Nat :=
  let email' : Option String := if email == "" then none else some email
  let telephone' : Option String := if telephone == "" then none else some telephone
  let user : User :=
    { id := db.nextUserId, account := account, password := genHash password,
      signature := "", email := email', telephone := telephone',
      lastLoginTime := now, role := role }
  ({ db with users := db.users ++ [user], nextUserId := db.nextUserId + 1 }, user.id)

/-- `Database.checkLogin`: fetch all users with the account
(`getAllUserByAccount(account, withPasswd=True)` filters rows by account
and projects them with their `password` and `id` fields), return the id of
the first whose stored hash verifies against the given password
(`check` stands for `check_password_hash`), else the `False` sentinel
(modelled as `none`). -/
def checkLogin (check : String → String → Bool) (db : DBState)
    (account password : String) : Option Nat :=
  let usersInfo := db.users.filter (fun u => u.account == account)
  match usersInfo.find? (fun info => check info.password password) with
  | some info => some info.id
  | none => none

/-! ### Projections used by the notification aggregator -/

/-- Dict built by `ExtractInfo.extractJournalComment`. -/
structure JournalCommentDict where
  id : Nat
  journalID : Nat
  authorID : Nat
  content : String
  publishTime : String
  isRead : Bool
deriving DecidableEq, Repr

/-- `ExtractInfo.extractJournalComment`. -/
def extractJournalComment (comment : JournalComment) : JournalCommentDict :=
  { id := comment.id, journalID := comment.journalID, authorID := comment.authorID,
    content := comment.content, publishTime := comment.publishTime, isRead := comment.isRead }

/-- Dict built by `ExtractInfo.extractGroupDiscussion`. -/
structure GroupDiscussionDict where
  id : Nat
  groupID : Nat
  posterID : Nat
  postTime : String
  title : String
  content : String
  isRead : Bool
deriving DecidableEq, Repr

/-- `ExtractInfo.extractGroupDiscussion`. -/
def extractGroupDiscussion (d : GroupDiscussion) : GroupDiscussionDict :=
  { id := d.id, groupID := d.groupID, posterID := d.posterID,
    postTime := d.postTime, title := d.title, content := d.content, isRead := d.isRead }

/-- Dict built by `ExtractInfo.extractGroupDiscussionReply`. -/
structure GroupDiscussionReplyDict where
  authorID : Nat
  discussionID : Nat
  replyTime : String
  content : String
  isRead : Bool
deriving DecidableEq, Repr

/-- `ExtractInfo.extractGroupDiscussionReply`. -/
def extractGroupDiscussionReply (r : GroupDiscussionReply) : GroupDiscussionReplyDict :=
  { authorID := r.authorID, discussionID := r.discussionID,
    replyTime := r.replyTime, content := r.content, isRead := r.isRead }

/-- Dict built by `ExtractInfo.extractChat`. -/
structure ChatDict where
  id : Nat
  senderID : Nat
  receiverID : Nat
  content : String
  sendTime : String
  isRead : Bool
deriving DecidableEq, Repr

/-- `ExtractInfo.extractChat`. -/
def extractChat (c : Chat) : ChatDict :=
  { id := c.id, senderID := c.senderID, receiverID := c.receiverID,
    content := c.content, sendTime := c.sendTime, isRead := c.isRead }

/-! ### Notification aggregator (`getAllUnreadMessage`, `getAllUnreadMessageNum`) -/

/-- The expression `self.getUser(userID)['account']` used by the
aggregator: subscripting the `None` returned for a missing user raises
`TypeError`; otherwise the dict lookup yields the `account` string. -/
def userAccountOf (db : DBState) (userID : Nat) : Except PyExc String :=
  match getUser db userID false with
  | none => Except.error PyExc.typeError
  | some d =>
      match d.lookup ("account") with
      | some (PyVal.vStr a) => Except.ok a
      | some _ => Except.error PyExc.typeError
      | none => Except.error PyExc.keyError

/-- A projected record augmented with the sender/poster display account
(the aggregator's `record["account"] = ...` mutation). -/
structure WithAccount (α : Type) where
  record : α
  account : String
deriving DecidableEq, Repr

/-- The aggregator's per-record augmentation loop: walk the list in
order, failing at the first record whose account lookup raises. -/
def augmentEach {α β : Type} (f : α → Except PyExc β) : List α → Except PyExc (List β)
  | [] => Except.ok []
  | a :: as => do
      let b ← f a
      let bs ← augmentEach f as
      Except.ok (b :: bs)

/-- Result dict of `Database.getAllUnreadMessage`. -/
structure UnreadMessages where
  journalComment : List (WithAccount JournalCommentDict)
  groupDiscussion : List (WithAccount GroupDiscussionDict)
  discussionReply : List (WithAccount GroupDiscussionReplyDict)
  chat : List (WithAccount ChatDict)
deriving DecidableEq, Repr

/-- `Database.getAllUnreadMessage`: the four unread categories, each the
projection of a filter over its table, augmented with the display account
of the relevant user. -/
def getAllUnreadMessage (db : DBState) (userID : Nat) : Except PyExc UnreadMessages := do
  let journalComments :=
    (db.journalComments.filter (fun c => c.authorID == userID && c.isRead == false)).map
      extractJournalComment
  let journalComments ← augmentEach
    (fun c => (userAccountOf db c.authorID).map (fun a => WithAccount.mk c a)) journalComments
  let groupID := (db.groups.filter (fun g => g.founderID == userID)).map (fun g => g.id)
  let groupDiscussions :=
    (db.groupDiscussions.filter (fun d => groupID.contains d.groupID && d.isRead == false)).map
      extractGroupDiscussion
  let groupDiscussions ← augmentEach
    (fun d => (userAccountOf db d.posterID).map (fun a => WithAccount.mk d a)) groupDiscussions
  let discussionID :=
    (db.groupDiscussions.filter (fun d => d.posterID == userID)).map (fun d => d.id)
  let discussionReplies :=
    (db.groupDiscussionReplies.filter
      (fun r => discussionID.contains r.discussionID && r.isRead == false)).map
      extractGroupDiscussionReply
  let discussionReplies ← augmentEach
    (fun r => (userAccountOf db r.authorID).map (fun a => WithAccount.mk r a)) discussionReplies
  let chats :=
    (db.chats.filter (fun c => c.receiverID == userID && c.isRead == false)).map extractChat
  let chats ← augmentEach
    (fun c => (userAccountOf db c.senderID).map (fun a => WithAccount.mk c a)) chats
  Except.ok { journalComment := journalComments, groupDiscussion := groupDiscussions,
              discussionReply := discussionReplies, chat := chats }

/-- Result dict of `Database.getAllUnreadMessageNum`. -/
structure UnreadMessageNum where
  journalComment : Nat
  groupDiscussion : Nat
  discussionReply : Nat
  chat : Nat
deriving DecidableEq, Repr

/-- `Database.getAllUnreadMessageNum`: the four unread counts, computed
from the same filter predicates as `getAllUnreadMessage`. -/
def getAllUnreadMessageNum (db : DBState) (userID : Nat) : UnreadMessageNum :=
  let journalCommentsNum :=
    (db.journalComments.filter (fun c => c.authorID == userID && c.isRead == false)).length
  let groupID := (db.groups.filter (fun g => g.founderID == userID)).map (fun g => g.id)
  let groupDiscussionsNum :=
    (db.groupDiscussions.filter (fun d => groupID.contains d.groupID && d.isRead == false)).length
  let discussionID :=
    (db.groupDiscussions.filter (fun d => d.posterID == userID)).map (fun d => d.id)
  let discussionRepliesNum :=
    (db.groupDiscussionReplies.filter
      (fun r => discussionID.contains r.discussionID && r.isRead == false)).length
  let chatsNum :=
    (db.chats.filter (fun c => c.receiverID == userID && c.isRead == false)).length
  { journalComment := journalCommentsNum, groupDiscussion := groupDiscussionsNum,
    discussionReply := discussionRepliesNum, chat := chatsNum }

/-! ### Journals (`addJournal`, `getJournal`, `extractJournal`) -/

/-- Dict built by `ExtractInfo.extractJournal`; `content` is the stored
text split on newlines. -/
structure JournalDict where
  id : Nat
  title : String
  firstParagraph : List Char
  content : List (List Char)
  publishTime : String
  authorID : Nat
  bookID : Nat
  likeNum : Nat
  commentNum : Nat
deriving DecidableEq, Repr

/-- `ExtractInfo.extractJournal`: `journal.content.split("\n")`
materialises the stored text as a list of lines. -/
def extractJournal (journal : Journal) (likeNum commentNum : Nat) : JournalDict :=
  { id := journal.id, title := journal.title, firstParagraph := journal.firstParagraph,
    content := journal.content.splitOn '\n', publishTime := journal.publishTime,
    authorID := journal.authorID, bookID := journal.bookID,
    likeNum := likeNum, commentNum := commentNum }

/-- `Database.addJournal`: stores `firstParagraph = content[0]`
(`IndexError` on an empty list) and `content = "\n".join(content)`, then
returns the id of the first journal found with the same title and author
(an `AttributeError` if that lookup finds nothing, which cannot happen
right after the insert). -/
def addJournal (db : DBState) (title : String) (content : List (List Char))
    (publishTime : String) (authorID bookID : Nat) : Except PyExc (DBState × Nat) :=
  match content.head? with
  | none => Except.error PyExc.indexError
  | some firstPar =>
      let journal : Journal :=
        { id := db.nextJournalId, title := title, firstParagraph := firstPar,
          content := List.intercalate ['\n'] content, publishTime := publishTime,
          authorID := authorID, bookID := bookID }
      let db' := { db with journals := db.journals ++ [journal],
                           nextJournalId := db.nextJournalId + 1 }
      match db'.journals.find? (fun j => j.title == title && j.authorID == authorID) with
      | none => Except.error PyExc.attributeError
      | some j => Except.ok (db', j.id)

/-- `Database.getJournal`: `first()` then attribute access on the result,
so a missing journal raises `AttributeError`; otherwise the projection
with the like and comment counts. -/
def getJournal (db : DBState) (journalID : Nat) : Except PyExc JournalDict :=
  match db.journals.find? (fun j => j.id == journalID) with
  | none => Except.error PyExc.attributeError
  | some journal =>
      let likeNum := (db.journalLikes.filter (fun l => l.journalID == journal.id)).length
      let commentNum := (db.journalComments.filter (fun c => c.journalID == journal.id)).length
      Except.ok (extractJournal journal likeNum commentNum)

/-! ### Remaining single-record getters (not-found behaviour) -/

/-- Dict built by `ExtractInfo.extractBook`. -/
structure BookDict where
  id : Nat
  isbn : String
  title : String
  originTitle : String
  subtitle : String
  author : String
  page : Nat
  publishDate : String
  publisher : String
  description : String
  doubanScore : Int
  doubanID : String
  type : String
deriving DecidableEq, Repr

/-- `ExtractInfo.extractBook`. -/
def extractBook (book : Book) : BookDict :=
  { id := book.id, isbn := book.isbn, title := book.title, originTitle := book.originTitle,
    subtitle := book.subtitle, author := book.author, page := book.page,
    publishDate := book.publishDate, publisher := book.publisher,
    description := book.description, doubanScore := book.doubanScore,
    doubanID := book.doubanID, type := book.type }

/-- `Database.getBook`: `extractBook(first())`, so attribute access on a
missing row raises `AttributeError` rather than returning a sentinel. -/
def getBook (db : DBState) (bookID : Nat) : Except PyExc BookDict :=
  match db.books.find? (fun b => b.id == bookID) with
  | none => Except.error PyExc.attributeError
  | some book => Except.ok (extractBook book)

/-- Dict built by `ExtractInfo.extractGroup`. -/
structure GroupDict where
  id : Nat
  name : String
  description : String
  establishTime : String
  founderID : Nat
deriving DecidableEq, Repr

/-- `ExtractInfo.extractGroup`. -/
def extractGroup (group : Group) : GroupDict :=
  { id := group.id, name := group.name, description := group.description,
    establishTime := group.establishTime, founderID := group.founderID }

/-- `Database.getGroup`: `extractGroup(first())`, raising
`AttributeError` when the group is missing. -/
def getGroup (db : DBState) (groupID : Nat) : Except PyExc GroupDict :=
  match db.groups.find? (fun g => g.id == groupID) with
  | none => Except.error PyExc.attributeError
  | some group => Except.ok (extractGroup group)

/-- Dict built inline by `Database.getError`. -/
structure ErrorDict where
  errorCode : Nat
  title : String
  title_en : String
  content : String
  publishTime : String
  authorID : Nat
  referenceLink : String
deriving DecidableEq, Repr

/-- `Database.getError`: builds the dict by attribute access on
`first()`, raising `AttributeError` when the error code is unknown. -/
def getError (db : DBState) (errorCode : Nat) : Except PyExc ErrorDict :=
  match db.errors.find? (fun e => e.errorCode == errorCode) with
  | none => Except.error PyExc.attributeError
  | some e =>
      Except.ok { errorCode := e.errorCode, title := e.title, title_en := e.title_en,
                  content := e.content, publishTime := e.publishTime,
                  authorID := e.authorID, referenceLink := e.referenceLink }

/-! ### Media utility (`Service/Img.py`)

An image is a list of pixel rows (`List (List Nat)`); `npSlice l a b`
is the numpy/Python slice `l[a:b]` for `a ≤ b` (all slice bounds in the
source are nonnegative). `imgWidth` is `img.shape[1]`, the length of the
first row of a rectangular pixel array. The source compares aspect
ratios with float division `originWidth / originHeight > width / height`;
it is embedded as the equivalent exact cross-multiplied integer
comparison, the form the specification itself prescribes. -/

/-- Python slice `l[a:b]` with nonnegative bounds. -/
def npSlice {α : Type} (l : List α) (a b : Nat) : List α := (l.drop a).take (b - a)

/-- Width of a rectangular image, `img.shape[1]`. -/
def imgWidth (img : List (List Nat)) : Nat := (img.headD []).length

/-- `Img.cropImage`: fixed-size crop with alignment strings; returns
`(False, img)` untouched when the requested box exceeds the source,
raises `ValueError` on an invalid alignment, else the aligned window. -/
def cropImage (img : List (List Nat)) (width height : Nat) (hAlign vAlign : String) :
    Except PyExc (Bool × List (List Nat)) :=
  let originHeight := img.length
  let originWidth := imgWidth img
  if originWidth < width ∨ originHeight < height then Except.ok (false, img)
  else
    let widthRange? : Option (Nat × Nat) :=
      match hAlign with
      | "left" => some (0, width)
      | "center" => some ((originWidth - width) / 2, (originWidth + width) / 2)
      | "right" => some (originWidth - width, originWidth)
      | _ => none
    let heightRange? : Option (Nat × Nat) :=
      match vAlign with
      | "top" => some (0, height)
      | "center" => some ((originHeight - height) / 2, (originHeight + height) / 2)
      | "bottom" => some (originHeight - height, originHeight)
      | _ => none
    match widthRange? with
    | none => Except.error PyExc.valueError
    | some widthRange =>
        match heightRange? with
        | none => Except.error PyExc.valueError
        | some heightRange =>
            Except.ok (true, (npSlice img heightRange.1 heightRange.2).map
              (fun row => npSlice row widthRange.1 widthRange.2))

/-- The `newWidth, newHeight` computation of `Img.cropImageByScale`:
the constraining dimension picked by the aspect comparison. -/
def scaleNewDims (img : List (List Nat)) (width height : Nat) : Nat × Nat :=
  let originHeight := img.length
  let originWidth := imgWidth img
  if originHeight * width < originWidth * height then
    (originHeight * width / height, originHeight)
  else
    (originWidth, originWidth * height / width)

/-- `Img.cropImageByScale`: largest centered window of the requested
aspect ratio. -/
def cropImageByScale (img : List (List Nat)) (width height : Nat) : List (List Nat) :=
  let originHeight := img.length
  let originWidth := imgWidth img
  let newWidth := (scaleNewDims img width height).1
  let newHeight := (scaleNewDims img width height).2
  (npSlice img ((originHeight - newHeight) / 2) ((originHeight + newHeight) / 2)).map
    (fun row => npSlice row ((originWidth - newWidth) / 2) ((originWidth + newWidth) / 2))

/-- `Img.cropImageSquare`: early return (no rewrite of the file) when the
image is already square, else the centered window of side
`min(originWidth, originHeight)`. -/
def cropImageSquare (img : List (List Nat)) : List (List Nat) :=
  let originHeight := img.length
  let originWidth := imgWidth img
  if originWidth = originHeight then img
  else
    let edgeLength := min originWidth originHeight
    if originHeight < originWidth then
      img.map (fun row => npSlice row ((originWidth - edgeLength) / 2) ((originWidth + edgeLength) / 2))
    else
      npSlice img ((originHeight - edgeLength) / 2) ((originHeight + edgeLength) / 2)

/-- Helper: mapping a row transformer over a table and then filtering with
a predicate that rejects every transformed row yields the empty list. -/
theorem filter_map_eq_nil {α β : Type} (f : α → β) (p : β → Bool)
    (h : ∀ a, p (f a) = false) (l : List α) : (l.map f).filter p = [] := by
  induction l with
  | nil => rfl
  | cons a as ih => simp [List.filter, h a, ih]

/-- Helper: a successful `Except` bind splits into a successful first
step and a successful continuation. -/
theorem except_bind_ok {ε α β : Type} {e : Except ε α} {f : α → Except ε β} {b : β}
    (h : e >>= f = Except.ok b) : ∃ a, e = Except.ok a ∧ f a = Except.ok b := by
  cases e with
  | error err => simp [Bind.bind, Except.bind] at h
  | ok a => exact ⟨a, rfl, h⟩

/-- Helper: the augmentation loop preserves the number of records when it
succeeds. -/
theorem augmentEach_length {α β : Type} {f : α → Except PyExc β} :
    ∀ {l : List α} {l' : List β}, augmentEach f l = Except.ok l' → l'.length = l.length := by
  intro l
  induction l with
  | nil =>
      intro l' h
      simp [augmentEach] at h
      simp [← h]
  | cons a as ih =>
      intro l' h
      simp only [augmentEach] at h
      obtain ⟨b, hb, h⟩ := except_bind_ok h
      obtain ⟨bs, hbs, h⟩ := except_bind_ok h
      cases h
      simp [ih hbs]

/-- C1 (notification parity): whenever `getAllUnreadMessage` returns a
result (it raises `TypeError` when a referenced user row is missing), the
per-category list lengths equal the counts of `getAllUnreadMessageNum`,
for all four categories, both computed from the same filter predicates. -/
theorem unread_parity (db : DBState) (userID : Nat) (m : UnreadMessages)
    (h : getAllUnreadMessage db userID = Except.ok m) :
    m.journalComment.length = (getAllUnreadMessageNum db userID).journalComment ∧
    m.groupDiscussion.length = (getAllUnreadMessageNum db userID).groupDiscussion ∧
    m.discussionReply.length = (getAllUnreadMessageNum db userID).discussionReply ∧
    m.chat.length = (getAllUnreadMessageNum db userID).chat := by
  unfold getAllUnreadMessage at h
  obtain ⟨l1, h1, h⟩ := except_bind_ok h
  obtain ⟨l2, h2, h⟩ := except_bind_ok h
  obtain ⟨l3, h3, h⟩ := except_bind_ok h
  obtain ⟨l4, h4, h⟩ := except_bind_ok h
  cases h
  refine ⟨?_, ?_, ?_, ?_⟩ <;>
    simp [getAllUnreadMessageNum, augmentEach_length h1, augmentEach_length h2,
      augmentEach_length h3, augmentEach_length h4]

/-- Concrete database for the parity witness: one user and one unread
chat message addressed to them. -/
def dbC1 : DBState :=
  { emptyDB with
      users := [{ id := 1, account := "bob", password := "h", signature := "",
                  email := none, telephone := none, lastLoginTime := "t0",
                  role := "student" }],
      chats := [{ id := 1, senderID := 1, receiverID := 1, content := "hi",
                  sendTime := "t1", isRead := false }] }

/-- Witness for C1: at the concrete state the aggregator succeeds and the
chat category has matching length and count. -/
theorem unread_parity_witness :
    getAllUnreadMessage dbC1 1 =
      Except.ok { journalComment := [], groupDiscussion := [], discussionReply := [],
                  chat := [{ record := { id := 1, senderID := 1, receiverID := 1,
                                         content := "hi", sendTime := "t1", isRead := false },
                             account := "bob" }] } ∧
    ({ journalComment := [], groupDiscussion := [], discussionReply := [],
       chat := [{ record := { id := 1, senderID := 1, receiverID := 1,
                              content := "hi", sendTime := "t1", isRead := false },
                  account := "bob" }] } : UnreadMessages).chat.length
      = (getAllUnreadMessageNum dbC1 1).chat :=
  ⟨rfl, (unread_parity dbC1 1 _ rfl).2.2.2⟩

/-- Helper: `addJournalLike` when the composite-key record is already
present. -/
theorem addJournalLike_found {db : DBState} {journalID authorID : Nat} {t : String}
    {l : JournalLike}
    (h : db.journalLikes.find?
        (fun l => l.journalID == journalID && l.authorID == authorID) = some l) :
    addJournalLike db journalID authorID t = (db, false) := by
  unfold addJournalLike
  rw [h]

/-- Helper: `addJournalLike` when no composite-key record is present. -/
theorem addJournalLike_not_found {db : DBState} {journalID authorID : Nat} {t : String}
    (h : db.journalLikes.find?
        (fun l => l.journalID == journalID && l.authorID == authorID) = none) :
    addJournalLike db journalID authorID t =
      ({ db with journalLikes := db.journalLikes
            ++ [{ authorID := authorID, journalID := journalID, publishTime := t }] },
        true) := by
  unfold addJournalLike
  rw [h]

/-- C2 (liking is conditional and duplicate-free): an existing
composite-key record makes `addJournalLike` return `False` and leave the
state (hence `getJournalLikeNum`) unchanged; with no such record it
inserts the like and returns `True`; in particular a second attempt right
after a successful first one returns `False` with the count unchanged. -/
theorem addJournalLike_duplicate_free (db : DBState) (journalID authorID : Nat)
    (t1 t2 : String) :
    ((∃ l ∈ db.journalLikes, l.journalID = journalID ∧ l.authorID = authorID) →
      addJournalLike db journalID authorID t1 = (db, false) ∧
      getJournalLikeNum (addJournalLike db journalID authorID t1).1 journalID
        = getJournalLikeNum db journalID) ∧
    ((∀ l ∈ db.journalLikes, ¬(l.journalID = journalID ∧ l.authorID = authorID)) →
      (addJournalLike db journalID authorID t1).2 = true ∧
      (addJournalLike db journalID authorID t1).1.journalLikes
        = db.journalLikes
            ++ [{ authorID := authorID, journalID := journalID, publishTime := t1 }]) ∧
    ((addJournalLike db journalID authorID t1).2 = true →
      addJournalLike (addJournalLike db journalID authorID t1).1 journalID authorID t2
        = ((addJournalLike db journalID authorID t1).1, false) ∧
      getJournalLikeNum
          (addJournalLike (addJournalLike db journalID authorID t1).1 journalID authorID t2).1
          journalID
        = getJournalLikeNum (addJournalLike db journalID authorID t1).1 journalID) := by
  refine ⟨?_, ?_, ?_⟩
  · rintro ⟨l, hl, h1, h2⟩
    have hsome : (db.journalLikes.find?
        (fun l => l.journalID == journalID && l.authorID == authorID)).isSome :=
      List.find?_isSome.mpr ⟨l, hl, by simp [h1, h2]⟩
    obtain ⟨l', hf⟩ := Option.isSome_iff_exists.mp hsome
    exact ⟨addJournalLike_found hf, by rw [addJournalLike_found hf]⟩
  · intro hnone
    have hf : db.journalLikes.find?
        (fun l => l.journalID == journalID && l.authorID == authorID) = none := by
      rw [List.find?_eq_none]
      intro x hx
      have := hnone x hx
      simp only [Bool.and_eq_true, beq_iff_eq]
      tauto
    rw [addJournalLike_not_found hf]
    exact ⟨rfl, rfl⟩
  · intro htrue
    have hf : db.journalLikes.find?
        (fun l => l.journalID == journalID && l.authorID == authorID) = none := by
      cases hf : db.journalLikes.find?
          (fun l => l.journalID == journalID && l.authorID == authorID) with
      | none => rfl
      | some l' => rw [addJournalLike_found hf] at htrue; simp at htrue
    have hstate : (addJournalLike db journalID authorID t1).1.journalLikes
        = db.journalLikes
            ++ [{ authorID := authorID, journalID := journalID, publishTime := t1 }] := by
      rw [addJournalLike_not_found hf]
    have hsome : ((addJournalLike db journalID authorID t1).1.journalLikes.find?
        (fun l => l.journalID == journalID && l.authorID == authorID)).isSome := by
      rw [hstate]
      exact List.find?_isSome.mpr
        ⟨{ authorID := authorID, journalID := journalID, publishTime := t1 },
          by simp, by simp⟩
    obtain ⟨l2, hf2⟩ := Option.isSome_iff_exists.mp hsome
    refine ⟨addJournalLike_found hf2, ?_⟩
    rw [addJournalLike_found hf2]

/-- Witness for C2 at a concrete state: empty database, like journal 7 as
user 3 twice. -/
theorem addJournalLike_duplicate_free_witness :
    ((addJournalLike emptyDB 7 3 "t1").2 = true ∧
      (addJournalLike emptyDB 7 3 "t1").1.journalLikes
        = emptyDB.journalLikes
            ++ [{ authorID := 3, journalID := 7, publishTime := "t1" }]) ∧
    (addJournalLike (addJournalLike emptyDB 7 3 "t1").1 7 3 "t2"
        = ((addJournalLike emptyDB 7 3 "t1").1, false) ∧
      getJournalLikeNum
          (addJournalLike (addJournalLike emptyDB 7 3 "t1").1 7 3 "t2").1 7
        = getJournalLikeNum (addJournalLike emptyDB 7 3 "t1").1 7) :=
  ⟨(addJournalLike_duplicate_free emptyDB 7 3 "t1" "t2").2.1 (by simp [emptyDB]),
   (addJournalLike_duplicate_free emptyDB 7 3 "t1" "t2").2.2 (by rfl)⟩

/-- C3 (bulk-read marking clears unread children): after each of the
three mark-all-read accessors runs for a parent id, every child record of
that parent has `isRead = true`, and the unread-children query for that
parent returns the empty collection. -/
theorem markAllAsRead_clears_unread (db : DBState) (journalID groupID discussionID : Nat) :
    (∀ c ∈ (markAllJournalCommentAsRead db journalID).journalComments,
        c.journalID = journalID → c.isRead = true) ∧
    getUnreadJournalComments (markAllJournalCommentAsRead db journalID) journalID = [] ∧
    (∀ d ∈ (markAllDiscussionAsRead db groupID).groupDiscussions,
        d.groupID = groupID → d.isRead = true) ∧
    getUnreadGroupDiscussions (markAllDiscussionAsRead db groupID) groupID = [] ∧
    (∀ r ∈ (markAllDiscussionReplyAsRead db discussionID).groupDiscussionReplies,
        r.discussionID = discussionID → r.isRead = true) ∧
    getUnreadDiscussionReplies (markAllDiscussionReplyAsRead db discussionID) discussionID
      = [] := by
  refine ⟨?_, ?_, ?_, ?_, ?_, ?_⟩
  · intro c hc hcj
    simp only [markAllJournalCommentAsRead, List.mem_map] at hc
    obtain ⟨a, _, rfl⟩ := hc
    by_cases h : a.journalID == journalID
    · simp [h]
    · rw [if_neg h] at hcj ⊢
      exact absurd (by simp [hcj]) h
  · apply filter_map_eq_nil
    intro a
    by_cases h : a.journalID == journalID
    · simp [h]
    · simp [h]
  · intro d hd hdg
    simp only [markAllDiscussionAsRead, List.mem_map] at hd
    obtain ⟨a, _, rfl⟩ := hd
    by_cases h : a.groupID == groupID
    · simp [h]
    · rw [if_neg h] at hdg ⊢
      exact absurd (by simp [hdg]) h
  · apply filter_map_eq_nil
    intro a
    by_cases h : a.groupID == groupID
    · simp [h]
    · simp [h]
  · intro r hr hrd
    simp only [markAllDiscussionReplyAsRead, List.mem_map] at hr
    obtain ⟨a, _, rfl⟩ := hr
    by_cases h : a.discussionID == discussionID
    · simp [h]
    · rw [if_neg h] at hrd ⊢
      exact absurd (by simp [hrd]) h
  · apply filter_map_eq_nil
    intro a
    by_cases h : a.discussionID == discussionID
    · simp [h]
    · simp [h]

/-- Witness for C3: concrete state with one unread comment, discussion
and reply, each cleared by its accessor. -/
def dbC3 : DBState :=
  { emptyDB with
      journalComments := [{ id := 1, publishTime := "t", authorID := 2, journalID := 5,
                            content := "c", isRead := false }],
      groupDiscussions := [{ id := 1, posterID := 2, groupID := 5, postTime := "t",
                             title := "d", content := "c", isRead := false }],
      groupDiscussionReplies := [{ authorID := 2, discussionID := 5, replyTime := "t",
                                   content := "c", isRead := false }] }

/-- Witness for C3 at the concrete state. -/
theorem markAllAsRead_clears_unread_witness :
    getUnreadJournalComments (markAllJournalCommentAsRead dbC3 5) 5 = [] ∧
    getUnreadGroupDiscussions (markAllDiscussionAsRead dbC3 5) 5 = [] ∧
    getUnreadDiscussionReplies (markAllDiscussionReplyAsRead dbC3 5) 5 = [] :=
  ⟨(markAllAsRead_clears_unread dbC3 5 5 5).2.1,
   (markAllAsRead_clears_unread dbC3 5 5 5).2.2.2.1,
   (markAllAsRead_clears_unread dbC3 5 5 5).2.2.2.2.2⟩

/-- C4 (journal content round-trip): for a non-empty line list with no
newline inside any line, in a database whose autoincrement id is fresh
and with no existing journal of the same title and author, `addJournal`
stores the newline-join and returns the new id, and `getJournal` on that
id splits the text back into exactly the original lines, with
`firstParagraph` the original first element. -/
theorem journal_roundtrip (db : DBState) (title : String) (content : List (List Char))
    (publishTime : String) (authorID bookID : Nat)
    (hne : content ≠ [])
    (hnl : ∀ line ∈ content, '\n' ∉ line)
    (hfresh : ∀ j ∈ db.journals, j.id ≠ db.nextJournalId)
    (huniq : ∀ j ∈ db.journals, ¬(j.title = title ∧ j.authorID = authorID)) :
    ∃ db', addJournal db title content publishTime authorID bookID
        = Except.ok (db', db.nextJournalId) ∧
      ∃ d, getJournal db' db.nextJournalId = Except.ok d ∧
        d.content = content ∧ content.head? = some d.firstParagraph := by
  obtain ⟨firstPar, rest, rfl⟩ : ∃ f r, content = f :: r := by
    cases content with
    | nil => exact absurd rfl hne
    | cons f r => exact ⟨f, r, rfl⟩
  set journal : Journal :=
    { id := db.nextJournalId, title := title, firstParagraph := firstPar,
      content := List.intercalate ['\n'] (firstPar :: rest), publishTime := publishTime,
      authorID := authorID, bookID := bookID } with hj
  set db' : DBState := { db with journals := db.journals ++ [journal],
                                 nextJournalId := db.nextJournalId + 1 } with hdb'
  have hfind1 : db'.journals.find? (fun j => j.title == title && j.authorID == authorID)
      = some journal := by
    rw [hdb']
    rw [List.find?_append]
    have h0 : db.journals.find? (fun j => j.title == title && j.authorID == authorID)
        = none := by
      rw [List.find?_eq_none]
      intro x hx
      have := huniq x hx
      simp only [Bool.and_eq_true, beq_iff_eq]
      tauto
    rw [h0]
    simp [hj]
  have hadd : addJournal db title (firstPar :: rest) publishTime authorID bookID
      = Except.ok (db', db.nextJournalId) := by
    unfold addJournal
    simp only [List.head?]
    rw [hfind1]
  have hfind2 : db'.journals.find? (fun j => j.id == db.nextJournalId) = some journal := by
    rw [hdb']
    rw [List.find?_append]
    have h0 : db.journals.find? (fun j => j.id == db.nextJournalId) = none := by
      rw [List.find?_eq_none]
      intro x hx
      simp [hfresh x hx]
    rw [h0]
    simp [hj]
  refine ⟨db', hadd, ?_⟩
  refine ⟨extractJournal journal
      ((db'.journalLikes.filter (fun l => l.journalID == journal.id)).length)
      ((db'.journalComments.filter (fun c => c.journalID == journal.id)).length), ?_, ?_, ?_⟩
  · unfold getJournal
    rw [hfind2]
  · show (List.intercalate ['\n'] (firstPar :: rest)).splitOn '\n' = firstPar :: rest
    exact List.splitOn_intercalate _ '\n' hnl hne
  · rfl

/-- Witness for C4: the spec scenario, lines First line and Second line
added to the empty database; the added journal reads back with
`firstParagraph` the first line and `content` the original pair. -/
theorem journal_roundtrip_witness :
    (([("First line".toList), ("Second line".toList)] : List (List Char)) ≠ [] ∧
      ∀ line ∈ ([("First line".toList), ("Second line".toList)] : List (List Char)),
        '\n' ∉ line) ∧
    (addJournal emptyDB ("J") [("First line".toList), ("Second line".toList)] ("t") 1 2).map
        (fun r => (getJournal r.1 r.2).map (fun d => (d.firstParagraph, d.content)))
      = Except.ok (Except.ok (("First line".toList),
          [("First line".toList), ("Second line".toList)])) ∧
    (∃ db', addJournal emptyDB ("J") [("First line".toList), ("Second line".toList)]
          ("t") 1 2 = Except.ok (db', emptyDB.nextJournalId) ∧
      ∃ d, getJournal db' emptyDB.nextJournalId = Except.ok d ∧
        d.content = [("First line".toList), ("Second line".toList)] ∧
        ([("First line".toList), ("Second line".toList)] : List (List Char)).head?
          = some d.firstParagraph) :=
  ⟨⟨by decide, by decide⟩, by rfl,
    journal_roundtrip emptyDB ("J") [("First line".toList), ("Second line".toList)]
      ("t") 1 2 (by decide) (by decide)
      (by intro j hj; simp [emptyDB] at hj) (by intro j hj; simp [emptyDB] at hj)⟩

/-- C7 counterexample: the claim asserts the not-found sentinel uniformly
across `getUser`, `getJournal`, `getBook`, `getGroup` and `getError`, but
on an id absent from the store all of the latter four raise
`AttributeError` (attribute access on `first()` returning `None`). -/
theorem getters_not_found_counterexample :
    getJournal emptyDB 1 = Except.error PyExc.attributeError ∧
    getBook emptyDB 1 = Except.error PyExc.attributeError ∧
    getGroup emptyDB 1 = Except.error PyExc.attributeError ∧
    getError emptyDB 404 = Except.error PyExc.attributeError :=
  ⟨rfl, rfl, rfl, rfl⟩

/-- C7 amended: on an absent id, `getUser` returns the `None` sentinel
without raising, while `getJournal`, `getBook`, `getGroup` and `getError`
raise `AttributeError` instead of returning a sentinel. -/
theorem getters_not_found (db : DBState) (id errorCode : Nat) (withPasswd : Bool)
    (hu : ∀ u ∈ db.users, u.id ≠ id)
    (hj : ∀ j ∈ db.journals, j.id ≠ id)
    (hb : ∀ b ∈ db.books, b.id ≠ id)
    (hg : ∀ g ∈ db.groups, g.id ≠ id)
    (he : ∀ e ∈ db.errors, e.errorCode ≠ errorCode) :
    getUser db id withPasswd = none ∧
    getJournal db id = Except.error PyExc.attributeError ∧
    getBook db id = Except.error PyExc.attributeError ∧
    getGroup db id = Except.error PyExc.attributeError ∧
    getError db errorCode = Except.error PyExc.attributeError := by
  have h1 : db.users.find? (fun u => u.id == id) = none :=
    List.find?_eq_none.mpr (fun x hx => by simp [hu x hx])
  have h2 : db.journals.find? (fun j => j.id == id) = none :=
    List.find?_eq_none.mpr (fun x hx => by simp [hj x hx])
  have h3 : db.books.find? (fun b => b.id == id) = none :=
    List.find?_eq_none.mpr (fun x hx => by simp [hb x hx])
  have h4 : db.groups.find? (fun g => g.id == id) = none :=
    List.find?_eq_none.mpr (fun x hx => by simp [hg x hx])
  have h5 : db.errors.find? (fun e => e.errorCode == errorCode) = none :=
    List.find?_eq_none.mpr (fun x hx => by simp [he x hx])
  refine ⟨?_, ?_, ?_, ?_, ?_⟩
  · unfold getUser; rw [h1]
  · unfold getJournal; rw [h2]
  · unfold getBook; rw [h3]
  · unfold getGroup; rw [h4]
  · unfold getError; rw [h5]

/-- Witness for the amended C7 at the empty database. -/
theorem getters_not_found_witness :
    (∀ u ∈ emptyDB.users, u.id ≠ 1) ∧
    (getUser emptyDB 1 false = none ∧
      getJournal emptyDB 1 = Except.error PyExc.attributeError ∧
      getBook emptyDB 1 = Except.error PyExc.attributeError ∧
      getGroup emptyDB 1 = Except.error PyExc.attributeError ∧
      getError emptyDB 404 = Except.error PyExc.attributeError) :=
  ⟨by intro u hu; simp [emptyDB] at hu,
    getters_not_found emptyDB 1 404 false
      (by intro u hu; simp [emptyDB] at hu)
      (by intro j hj; simp [emptyDB] at hj)
      (by intro b hb; simp [emptyDB] at hb)
      (by intro g hg; simp [emptyDB] at hg)
      (by intro e he; simp [emptyDB] at he)⟩

/-- C8 (registration and login): provided the hashing contract of the
password library (`check (genHash p) q` succeeds exactly for `q = p`) and
that no existing user already has the account, after `addUser` a login
with the same account and password returns the assigned id, a login with
any password failing the hash check returns the `False` sentinel, and so
does a login with a non-existent account. -/
theorem register_login (genHash : String → String) (check : String → String → Bool)
    (hcheck : ∀ p q, check (genHash p) q = true ↔ q = p)
    (db : DBState) (account password email telephone role now : String)
    (hacc : ∀ u ∈ db.users, u.account ≠ account) :
    checkLogin check (addUser genHash db account password email telephone role now).1
        account password
      = some (addUser genHash db account password email telephone role now).2 ∧
    (∀ wrong, wrong ≠ password →
      checkLogin check (addUser genHash db account password email telephone role now).1
          account wrong = none) ∧
    (∀ other, (∀ u ∈ (addUser genHash db account password email telephone role now).1.users,
        u.account ≠ other) →
      ∀ pw, checkLogin check (addUser genHash db account password email telephone role now).1
          other pw = none) := by
  set newUser : User :=
    { id := db.nextUserId, account := account,
      password := genHash password, signature := "",
      email := if email == "" then none else some email,
      telephone := if telephone == "" then none else some telephone,
      lastLoginTime := now, role := role } with hnu
  have husers : (addUser genHash db account password email telephone role now).1.users
      = db.users ++ [newUser] := rfl
  have hid : (addUser genHash db account password email telephone role now).2
      = db.nextUserId := rfl
  have hfilter : ((addUser genHash db account password email telephone role now).1.users.filter
      (fun u => u.account == account)) = [newUser] := by
    rw [husers, List.filter_append]
    have h0 : db.users.filter (fun u => u.account == account) = [] :=
      List.filter_eq_nil_iff.mpr (fun x hx => by simp [hacc x hx])
    rw [h0]
    simp [hnu]
  have hpw : newUser.password = genHash password := by rw [hnu]
  have hnid : newUser.id = db.nextUserId := by rw [hnu]
  refine ⟨?_, ?_, ?_⟩
  · unfold checkLogin
    rw [hfilter]
    have hp2 : check newUser.password password = true := by
      rw [hpw]
      exact (hcheck password password).mpr rfl
    simp only [List.find?]
    rw [hp2]
    rw [hid]
  · intro wrong hwrong
    unfold checkLogin
    rw [hfilter]
    have hp2 : check newUser.password wrong = false := by
      rw [hpw]
      cases hb : check (genHash password) wrong with
      | false => rfl
      | true => exact absurd ((hcheck password wrong).mp hb) hwrong
    simp only [List.find?]
    rw [hp2]
  · intro other hother pw
    unfold checkLogin
    have h0 : ((addUser genHash db account password email telephone role now).1.users.filter
        (fun u => u.account == other)) = [] :=
      List.filter_eq_nil_iff.mpr (fun x hx => by simp [hother x hx])
    rw [h0]
    rfl

/-- Witness for C8: register alice with password p1 and email a@x.com in
the empty database (with a transparent hash standing in for werkzeug),
then log in with the right and with a wrong password. -/
theorem register_login_witness :
    (∀ p q : String, ((fun stored given => stored == given) (id p) q) = true ↔ q = p) ∧
    (∀ u ∈ emptyDB.users, u.account ≠ ("alice")) ∧
    checkLogin (fun stored given => stored == given)
        (addUser id emptyDB ("alice") ("p1") ("a@x.com") ("") ("student") ("t0")).1
        ("alice") ("p1")
      = some (addUser id emptyDB ("alice") ("p1") ("a@x.com") ("") ("student") ("t0")).2 ∧
    checkLogin (fun stored given => stored == given)
        (addUser id emptyDB ("alice") ("p1") ("a@x.com") ("") ("student") ("t0")).1
        ("alice") ("p2") = none :=
  ⟨by intro p q; simp only [id_eq, beq_iff_eq]; exact eq_comm,
    by intro u hu; simp [emptyDB] at hu,
    (register_login id (fun stored given => stored == given)
      (by intro p q; simp only [id_eq, beq_iff_eq]; exact eq_comm) emptyDB ("alice") ("p1") ("a@x.com") ("")
      ("student") ("t0") (by intro u hu; simp [emptyDB] at hu)).1,
    (register_login id (fun stored given => stored == given)
      (by intro p q; simp only [id_eq, beq_iff_eq]; exact eq_comm) emptyDB ("alice") ("p1") ("a@x.com") ("")
      ("student") ("t0") (by intro u hu; simp [emptyDB] at hu)).2.1 ("p2") (by decide)⟩

/-- Helper: the keys of the default (passwordless) user projection. -/
theorem extractUser_false_keys (u : User) :
    (extractUser u false).map Prod.fst
      = [("id"), ("account"), ("signature"), ("email"), ("telephone"), ("role")] := rfl

/-- C10 (password non-leakage in default projections): the default
projection contains no password key, two users differing only in their
password project identically, and any dict returned by `getUser` with
`withPasswd = false` has no password key. -/
theorem extractUser_password_absent (u v : User)
    (h : u.id = v.id ∧ u.account = v.account ∧ u.signature = v.signature ∧
         u.email = v.email ∧ u.telephone = v.telephone ∧
         u.lastLoginTime = v.lastLoginTime ∧ u.role = v.role) :
    ("password") ∉ (extractUser u false).map Prod.fst ∧
    extractUser u false = extractUser v false ∧
    ∀ (db : DBState) (userID : Nat) (d : List (String × PyVal)),
      getUser db userID false = some d → ("password") ∉ d.map Prod.fst := by
  obtain ⟨h1, h2, h3, h4, h5, h6, h7⟩ := h
  refine ⟨?_, ?_, ?_⟩
  · rw [extractUser_false_keys]
    decide
  · simp [extractUser, h1, h2, h3, h4, h5, h7]
  · intro db userID d hd
    unfold getUser at hd
    cases hfind : db.users.find? (fun x => x.id == userID) with
    | none => rw [hfind] at hd; simp at hd
    | some u' =>
        rw [hfind] at hd
        have : d = extractUser u' false := by
          injection hd with hd
          exact hd.symm
        rw [this, extractUser_false_keys]
        decide

/-- Concrete user for the C10 witness. -/
def uC10 : User :=
  { id := 1, account := "a", password := "hash1", signature := "s",
    email := none, telephone := none, lastLoginTime := "t", role := "student" }

/-- The same user with a different stored password hash. -/
def vC10 : User :=
  { id := 1, account := "a", password := "hash2", signature := "s",
    email := none, telephone := none, lastLoginTime := "t", role := "student" }

/-- Witness for C10 at two users differing only in the password field. -/
theorem extractUser_password_absent_witness :
    (uC10.id = vC10.id ∧ uC10.account = vC10.account ∧ uC10.signature = vC10.signature ∧
      uC10.email = vC10.email ∧ uC10.telephone = vC10.telephone ∧
      uC10.lastLoginTime = vC10.lastLoginTime ∧ uC10.role = vC10.role) ∧
    ("password") ∉ (extractUser uC10 false).map Prod.fst ∧
    extractUser uC10 false = extractUser vC10 false :=
  ⟨by decide,
    (extractUser_password_absent uC10 vC10 (by decide)).1,
    (extractUser_password_absent uC10 vC10 (by decide)).2.1⟩

/-- Helper: length of a Python slice whose upper bound is within the
list. -/
theorem npSlice_length {α : Type} (l : List α) (a b : Nat) (hb : b ≤ l.length) :
    (npSlice l a b).length = b - a := by
  simp only [npSlice, List.length_take, List.length_drop]
  omega

/-- Helper: a full slice returns the list unchanged. -/
theorem npSlice_all {α : Type} (l : List α) : npSlice l 0 l.length = l := by
  simp [npSlice]

/-- Helper: membership in a slice implies membership in the list. -/
theorem mem_of_mem_npSlice {α : Type} {x : α} {l : List α} {a b : Nat}
    (h : x ∈ npSlice l a b) : x ∈ l :=
  List.mem_of_mem_drop (List.mem_of_mem_take h)

/-- Helper: exact dimensions of a rectangular window sliced out of a
rectangular image. -/
theorem cropWindow_dims (img : List (List Nat)) (a b c d : Nat)
    (hrect : ∀ r ∈ img, r.length = imgWidth img)
    (hb : b ≤ img.length) (hd : d ≤ imgWidth img) :
    ((npSlice img a b).map (fun row => npSlice row c d)).length = b - a ∧
    ∀ r ∈ (npSlice img a b).map (fun row => npSlice row c d), r.length = d - c := by
  constructor
  · rw [List.length_map, npSlice_length img a b hb]
  · intro r hr
    rw [List.mem_map] at hr
    obtain ⟨row, hrow, rfl⟩ := hr
    have hwid : row.length = imgWidth img := hrect row (mem_of_mem_npSlice hrow)
    rw [npSlice_length row c d (by omega)]

/-- C9 (fixed-crop exact output size): with a valid alignment pair and a
requested box inside the source, `cropImage` succeeds and the output has
exactly the requested number of rows and columns; a request exceeding
the source yields `(False, img)` with the image untouched. -/
theorem cropImage_spec (img : List (List Nat)) (width height : Nat) (hAlign vAlign : String)
    (hrect : ∀ r ∈ img, r.length = imgWidth img) :
    ((hAlign = "left" ∨ hAlign = "center" ∨ hAlign = "right") →
      (vAlign = "top" ∨ vAlign = "center" ∨ vAlign = "bottom") →
      width ≤ imgWidth img → height ≤ img.length →
      ∃ out, cropImage img width height hAlign vAlign = Except.ok (true, out) ∧
        out.length = height ∧ ∀ r ∈ out, r.length = width) ∧
    (imgWidth img < width ∨ img.length < height →
      cropImage img width height hAlign vAlign = Except.ok (false, img)) := by
  constructor
  · intro hA hV hwle hhle
    have hno : ¬ (imgWidth img < width ∨ img.length < height) := by omega
    rcases hA with rfl | rfl | rfl <;> rcases hV with rfl | rfl | rfl
    · obtain ⟨hlen, hrow⟩ := cropWindow_dims img 0 height 0 width hrect (by omega) (by omega)
      refine ⟨_, ?_, by rw [hlen]; omega, fun r hr => by rw [hrow r hr]; omega⟩
      simp only [cropImage]
      rw [if_neg hno]
    · obtain ⟨hlen, hrow⟩ := cropWindow_dims img ((img.length - height) / 2)
        ((img.length + height) / 2) 0 width hrect (by omega) (by omega)
      refine ⟨_, ?_, by rw [hlen]; omega, fun r hr => by rw [hrow r hr]; omega⟩
      simp only [cropImage]
      rw [if_neg hno]
    · obtain ⟨hlen, hrow⟩ := cropWindow_dims img (img.length - height) img.length
        0 width hrect (by omega) (by omega)
      refine ⟨_, ?_, by rw [hlen]; omega, fun r hr => by rw [hrow r hr]; omega⟩
      simp only [cropImage]
      rw [if_neg hno]
    · obtain ⟨hlen, hrow⟩ := cropWindow_dims img 0 height
        ((imgWidth img - width) / 2) ((imgWidth img + width) / 2) hrect (by omega) (by omega)
      refine ⟨_, ?_, by rw [hlen]; omega, fun r hr => by rw [hrow r hr]; omega⟩
      simp only [cropImage]
      rw [if_neg hno]
    · obtain ⟨hlen, hrow⟩ := cropWindow_dims img ((img.length - height) / 2)
        ((img.length + height) / 2) ((imgWidth img - width) / 2) ((imgWidth img + width) / 2)
        hrect (by omega) (by omega)
      refine ⟨_, ?_, by rw [hlen]; omega, fun r hr => by rw [hrow r hr]; omega⟩
      simp only [cropImage]
      rw [if_neg hno]
    · obtain ⟨hlen, hrow⟩ := cropWindow_dims img (img.length - height) img.length
        ((imgWidth img - width) / 2) ((imgWidth img + width) / 2) hrect (by omega) (by omega)
      refine ⟨_, ?_, by rw [hlen]; omega, fun r hr => by rw [hrow r hr]; omega⟩
      simp only [cropImage]
      rw [if_neg hno]
    · obtain ⟨hlen, hrow⟩ := cropWindow_dims img 0 height
        (imgWidth img - width) (imgWidth img) hrect (by omega) (by omega)
      refine ⟨_, ?_, by rw [hlen]; omega, fun r hr => by rw [hrow r hr]; omega⟩
      simp only [cropImage]
      rw [if_neg hno]
    · obtain ⟨hlen, hrow⟩ := cropWindow_dims img ((img.length - height) / 2)
        ((img.length + height) / 2) (imgWidth img - width) (imgWidth img)
        hrect (by omega) (by omega)
      refine ⟨_, ?_, by rw [hlen]; omega, fun r hr => by rw [hrow r hr]; omega⟩
      simp only [cropImage]
      rw [if_neg hno]
    · obtain ⟨hlen, hrow⟩ := cropWindow_dims img (img.length - height) img.length
        (imgWidth img - width) (imgWidth img) hrect (by omega) (by omega)
      refine ⟨_, ?_, by rw [hlen]; omega, fun r hr => by rw [hrow r hr]; omega⟩
      simp only [cropImage]
      rw [if_neg hno]
  · intro hbig
    simp only [cropImage]
    rw [if_pos hbig]

/-- Concrete 3-row, 4-column image for the C9 witness. -/
def imgW9 : List (List Nat) := [[1, 2, 3, 4], [5, 6, 7, 8], [9, 10, 11, 12]]

/-- Witness for C9: center-center crop of a 4x3 image to 2x1, and an
oversized request returning `False` with the image untouched. -/
theorem cropImage_spec_witness :
    (∀ r ∈ imgW9, r.length = imgWidth imgW9) ∧
    (2 ≤ imgWidth imgW9 ∧ 1 ≤ imgW9.length) ∧
    (∃ out, cropImage imgW9 2 1 ("center") ("center") = Except.ok (true, out) ∧
      out.length = 1 ∧ ∀ r ∈ out, r.length = 2) ∧
    cropImage imgW9 5 1 ("center") ("center") = Except.ok (false, imgW9) :=
  ⟨by decide, by decide,
    (cropImage_spec imgW9 2 1 ("center") ("center") (by decide)).1
      (Or.inr (Or.inl rfl)) (Or.inr (Or.inl rfl)) (by decide) (by decide),
    (cropImage_spec imgW9 5 1 ("center") ("center") (by decide)).2 (by decide)⟩

/-- C6 (square-crop idempotence): on an already-square image
`cropImageSquare` returns the image pixel-identically (the source
returns before rewriting the file); on a non-square rectangular image it
produces the centered window of side `min(width, height)`. -/
theorem cropImageSquare_spec :
    (∀ img : List (List Nat), imgWidth img = img.length → cropImageSquare img = img) ∧
    (∀ img : List (List Nat), (∀ r ∈ img, r.length = imgWidth img) →
      imgWidth img ≠ img.length →
      (cropImageSquare img).length = min (imgWidth img) img.length ∧
      (∀ r ∈ cropImageSquare img, r.length = min (imgWidth img) img.length) ∧
      cropImageSquare img =
        (npSlice img ((img.length - min (imgWidth img) img.length) / 2)
            ((img.length + min (imgWidth img) img.length) / 2)).map
          (fun row => npSlice row ((imgWidth img - min (imgWidth img) img.length) / 2)
            ((imgWidth img + min (imgWidth img) img.length) / 2))) := by
  constructor
  · intro img hsq
    simp only [cropImageSquare]
    rw [if_pos hsq]
  · intro img hrect hne
    by_cases hlt : img.length < imgWidth img
    · have he : min (imgWidth img) img.length = img.length :=
        Nat.min_eq_right (Nat.le_of_lt hlt)
      have hbody : cropImageSquare img
          = img.map (fun row => npSlice row ((imgWidth img - min (imgWidth img) img.length) / 2)
              ((imgWidth img + min (imgWidth img) img.length) / 2)) := by
        simp only [cropImageSquare]
        rw [if_neg hne, if_pos hlt]
      refine ⟨?_, ?_, ?_⟩
      · rw [hbody, List.length_map]
        omega
      · intro r hr
        rw [hbody, List.mem_map] at hr
        obtain ⟨row, hrow, rfl⟩ := hr
        have hwid : row.length = imgWidth img := hrect row hrow
        rw [npSlice_length row _ _ (by omega)]
        omega
      · rw [hbody, he]
        have h0 : (img.length - img.length) / 2 = 0 := by omega
        have h1 : (img.length + img.length) / 2 = img.length := by omega
        rw [h0, h1, npSlice_all]
    · have hwlt : imgWidth img < img.length := by omega
      have he : min (imgWidth img) img.length = imgWidth img :=
        Nat.min_eq_left (Nat.le_of_lt hwlt)
      have hbody : cropImageSquare img
          = npSlice img ((img.length - min (imgWidth img) img.length) / 2)
              ((img.length + min (imgWidth img) img.length) / 2) := by
        simp only [cropImageSquare]
        rw [if_neg hne, if_neg hlt]
      refine ⟨?_, ?_, ?_⟩
      · rw [hbody, npSlice_length img _ _ (by omega)]
        omega
      · intro r hr
        rw [hbody] at hr
        have := hrect r (mem_of_mem_npSlice hr)
        omega
      · rw [hbody, he]
        have h0 : (imgWidth img - imgWidth img) / 2 = 0 := by omega
        have hid : ∀ row ∈ npSlice img ((img.length - imgWidth img) / 2)
            ((img.length + imgWidth img) / 2),
            npSlice row ((imgWidth img - imgWidth img) / 2)
              ((imgWidth img + imgWidth img) / 2) = row := by
          intro row hrow
          have hwid : row.length = imgWidth img := hrect row (mem_of_mem_npSlice hrow)
          have h1 : (imgWidth img + imgWidth img) / 2 = imgWidth img := by omega
          rw [h0, h1, ← hwid, npSlice_all]
        exact ((List.map_congr_left hid).trans (List.map_id _)).symm

/-- Concrete square image for the C6 witness. -/
def imgSq : List (List Nat) := [[1]]

/-- Concrete non-square (2 wide, 3 high) image for the C6 witness. -/
def imgRect : List (List Nat) := [[1, 2], [3, 4], [5, 6]]

/-- Witness for C6: the square image is returned unchanged; the
non-square one becomes a 2x2 centered window. -/
theorem cropImageSquare_spec_witness :
    (imgWidth imgSq = imgSq.length ∧ cropImageSquare imgSq = imgSq) ∧
    (imgWidth imgRect ≠ imgRect.length ∧
      (cropImageSquare imgRect).length = min (imgWidth imgRect) imgRect.length ∧
      ∀ r ∈ cropImageSquare imgRect, r.length = min (imgWidth imgRect) imgRect.length) :=
  ⟨⟨by decide, cropImageSquare_spec.1 imgSq (by decide)⟩,
    ⟨by decide,
      (cropImageSquare_spec.2 imgRect (by decide) (by decide)).1,
      (cropImageSquare_spec.2 imgRect (by decide) (by decide)).2.1⟩⟩

/-- Helper: the constrained dimensions never exceed the source
dimensions. -/
theorem scaleNewDims_bounds (img : List (List Nat)) (w h : Nat) (hw : 0 < w) (hh : 0 < h) :
    (scaleNewDims img w h).2 ≤ img.length ∧ (scaleNewDims img w h).1 ≤ imgWidth img := by
  unfold scaleNewDims
  by_cases hcmp : img.length * w < imgWidth img * h
  · rw [if_pos hcmp]
    refine ⟨Nat.le_refl _, ?_⟩
    have : img.length * w / h < imgWidth img := (Nat.div_lt_iff_lt_mul hh).mpr hcmp
    omega
  · rw [if_neg hcmp]
    refine ⟨?_, Nat.le_refl _⟩
    have h1 : imgWidth img * h ≤ img.length * w := Nat.le_of_not_lt hcmp
    calc imgWidth img * h / w ≤ img.length * w / w := Nat.div_le_div_right h1
    _ = img.length := Nat.mul_div_cancel img.length hw

/-- Helper: exact output dimensions of the aspect crop. -/
theorem cropImageByScale_dims (img : List (List Nat)) (w h : Nat) (hw : 0 < w) (hh : 0 < h)
    (hrect : ∀ r ∈ img, r.length = imgWidth img) :
    (cropImageByScale img w h).length = (scaleNewDims img w h).2 ∧
    ∀ r ∈ cropImageByScale img w h, r.length = (scaleNewDims img w h).1 := by
  obtain ⟨hb2, hb1⟩ := scaleNewDims_bounds img w h hw hh
  have hbody : cropImageByScale img w h =
      (npSlice img ((img.length - (scaleNewDims img w h).2) / 2)
          ((img.length + (scaleNewDims img w h).2) / 2)).map
        (fun row => npSlice row ((imgWidth img - (scaleNewDims img w h).1) / 2)
          ((imgWidth img + (scaleNewDims img w h).1) / 2)) := rfl
  obtain ⟨hlen, hrow⟩ := cropWindow_dims img
      ((img.length - (scaleNewDims img w h).2) / 2) ((img.length + (scaleNewDims img w h).2) / 2)
      ((imgWidth img - (scaleNewDims img w h).1) / 2) ((imgWidth img + (scaleNewDims img w h).1) / 2)
      hrect (by omega) (by omega)
  constructor
  · rw [hbody, hlen]
    omega
  · intro r hr
    rw [hbody] at hr
    rw [hrow r hr]
    omega

/-- The 1000-wide, 500-high all-zero image of the spec scenario. -/
def img1000x500 : List (List Nat) := List.replicate 500 (List.replicate 1000 0)

/-- The 1000-wide, 400-high all-zero image of the spec scenario. -/
def img1000x400 : List (List Nat) := List.replicate 400 (List.replicate 1000 0)

/-- Helper: width of the 1000x500 scenario image. -/
theorem img1000x500_width : imgWidth img1000x500 = 1000 := by
  rw [imgWidth, img1000x500]
  rw [List.headD_eq_head?_getD, List.head?_replicate]
  norm_num

/-- Helper: width of the 1000x400 scenario image. -/
theorem img1000x400_width : imgWidth img1000x400 = 1000 := by
  rw [imgWidth, img1000x400]
  rw [List.headD_eq_head?_getD, List.head?_replicate]
  norm_num

/-- Helper: cropping the 1000x500 scenario image to 5:2 gives the
1000x400 image, rows 50 to 450. -/
theorem cropScale_scenario1 : cropImageByScale img1000x500 5 2 = img1000x400 := by
  have hw : imgWidth img1000x500 = 1000 := img1000x500_width
  have hl : img1000x500.length = 500 := by rw [img1000x500, List.length_replicate]
  have hsd : scaleNewDims img1000x500 5 2 = (1000, 400) := by
    unfold scaleNewDims
    rw [hw, hl]
    norm_num
  simp only [cropImageByScale]
  rw [hsd, hw, hl]
  norm_num
  rw [img1000x500, img1000x400]
  simp only [npSlice, List.drop_replicate, List.take_replicate, List.map_replicate]
  norm_num

/-- Helper: cropping the 1000x400 scenario image to 5:2 leaves it
unchanged. -/
theorem cropScale_scenario2 : cropImageByScale img1000x400 5 2 = img1000x400 := by
  have hw : imgWidth img1000x400 = 1000 := img1000x400_width
  have hl : img1000x400.length = 400 := by rw [img1000x400, List.length_replicate]
  have hsd : scaleNewDims img1000x400 5 2 = (1000, 400) := by
    unfold scaleNewDims
    rw [hw, hl]
    norm_num
  simp only [cropImageByScale]
  rw [hsd, hw, hl]
  norm_num
  rw [img1000x400]
  simp only [npSlice, List.drop_replicate, List.take_replicate, List.map_replicate]
  norm_num

/-- C5 (crop-to-aspect invariant): for positive ratio components, on a
rectangular image the output dimensions never exceed the source, the
output aspect matches the requested ratio within integer-rounding
tolerance, the output is the centered window (margins on each axis
balanced to within one pixel), and the two spec scenarios hold: a
1000x500 image cropped to 5:2 becomes the 1000x400 centered image, and a
1000x400 image cropped to 5:2 is unchanged. -/
theorem cropImageByScale_spec :
    (∀ (img : List (List Nat)) (w h : Nat), 0 < w → 0 < h →
      (∀ r ∈ img, r.length = imgWidth img) →
      (cropImageByScale img w h).length ≤ img.length ∧
      (∀ r ∈ cropImageByScale img w h, r.length ≤ imgWidth img) ∧
      (∀ r ∈ cropImageByScale img w h,
        r.length * h < ((cropImageByScale img w h).length + 1) * w ∧
        (cropImageByScale img w h).length * w < (r.length + 1) * h) ∧
      cropImageByScale img w h =
        (npSlice img ((img.length - (scaleNewDims img w h).2) / 2)
            ((img.length + (scaleNewDims img w h).2) / 2)).map
          (fun row => npSlice row ((imgWidth img - (scaleNewDims img w h).1) / 2)
            ((imgWidth img + (scaleNewDims img w h).1) / 2)) ∧
      ((img.length - (scaleNewDims img w h).2) / 2
          ≤ img.length - (img.length + (scaleNewDims img w h).2) / 2 ∧
        img.length - (img.length + (scaleNewDims img w h).2) / 2
          ≤ (img.length - (scaleNewDims img w h).2) / 2 + 1) ∧
      ((imgWidth img - (scaleNewDims img w h).1) / 2
          ≤ imgWidth img - (imgWidth img + (scaleNewDims img w h).1) / 2 ∧
        imgWidth img - (imgWidth img + (scaleNewDims img w h).1) / 2
          ≤ (imgWidth img - (scaleNewDims img w h).1) / 2 + 1)) ∧
    cropImageByScale img1000x500 5 2 = img1000x400 ∧
    cropImageByScale img1000x400 5 2 = img1000x400 := by
  refine ⟨?_, cropScale_scenario1, cropScale_scenario2⟩
  intro img w h hw hh hrect
  obtain ⟨hb2, hb1⟩ := scaleNewDims_bounds img w h hw hh
  obtain ⟨hlen, hrow⟩ := cropImageByScale_dims img w h hw hh hrect
  refine ⟨by omega, fun r hr => by have := hrow r hr; omega, ?_, rfl,
    ⟨by omega, by omega⟩, ⟨by omega, by omega⟩⟩
  intro r hr
  have hr' := hrow r hr
  rw [hr', hlen]
  by_cases hcmp : img.length * w < imgWidth img * h
  · have hsd : scaleNewDims img w h = (img.length * w / h, img.length) := by
      unfold scaleNewDims
      rw [if_pos hcmp]
    rw [hsd]
    dsimp only
    constructor
    · have hd : img.length * w / h * h ≤ img.length * w := Nat.div_mul_le_self _ _
      have e : (img.length + 1) * w = img.length * w + w := by ring
      rw [e]
      omega
    · have hdm := Nat.div_add_mod (img.length * w) h
      have hm : (img.length * w) % h < h := Nat.mod_lt _ hh
      have e : (img.length * w / h + 1) * h = img.length * w / h * h + h := by ring
      rw [e]
      rw [Nat.mul_comm h (img.length * w / h)] at hdm
      omega
  · have hsd : scaleNewDims img w h = (imgWidth img, imgWidth img * h / w) := by
      unfold scaleNewDims
      rw [if_neg hcmp]
    rw [hsd]
    dsimp only
    constructor
    · have hdm := Nat.div_add_mod (imgWidth img * h) w
      have hm : (imgWidth img * h) % w < w := Nat.mod_lt _ hw
      have e : (imgWidth img * h / w + 1) * w = imgWidth img * h / w * w + w := by ring
      rw [e]
      rw [Nat.mul_comm w (imgWidth img * h / w)] at hdm
      omega
    · have hd : imgWidth img * h / w * w ≤ imgWidth img * h := Nat.div_mul_le_self _ _
      have e : (imgWidth img + 1) * h = imgWidth img * h + h := by ring
      rw [e]
      omega

/-- Witness for C5: the general invariants applied to the concrete
1000x500 scenario image with ratio 5:2. -/
theorem cropImageByScale_spec_witness :
    ((0 : Nat) < 5 ∧ (0 : Nat) < 2 ∧
      (∀ r ∈ img1000x500, r.length = imgWidth img1000x500)) ∧
    (cropImageByScale img1000x500 5 2).length ≤ img1000x500.length ∧
    (∀ r ∈ cropImageByScale img1000x500 5 2, r.length ≤ imgWidth img1000x500) :=
  ⟨⟨by norm_num, by norm_num,
      by intro r hr
         simp only [img1000x500] at hr
         rw [List.eq_of_mem_replicate hr, img1000x500_width, List.length_replicate]⟩,
    (cropImageByScale_spec.1 img1000x500 5 2 (by norm_num) (by norm_num)
      (by intro r hr
          simp only [img1000x500] at hr
          rw [List.eq_of_mem_replicate hr, img1000x500_width, List.length_replicate])).1,
    (cropImageByScale_spec.1 img1000x500 5 2 (by norm_num) (by norm_num)
      (by intro r hr
          simp only [img1000x500] at hr
          rw [List.eq_of_mem_replicate hr, img1000x500_width, List.length_replicate])).2.1⟩

end BookDB
